import Mathlib

/-!
# VCS capture/scaler core: a shallow embedding

This file embeds the state and the state-transforming functions of
`src/capture/capture.cpp` and `src/scaler/scaler.cpp` of the VCS
video-capture engine, and proves (or refutes) the specification claims
about them.

Conventions of the embedding:

* C++ unsigned 32-bit counters become `Nat` reduced `% 2 ^ 32` at each
  increment; signed integer parameters become `Int`.
* The file-scope statics of each translation unit become fields of an
  explicit state record (`CaptureState`, `ScalerState`) threaded through
  the functions.
* Calls into the RGBEasy vendor API are modelled by their effect on the
  driver-side state (`hwCaptureRes`, `hwVideoSettings`, ...) plus an
  explicit trace of the parameter writes the engine performs
  (`verPosWrites`, `appliedModeParams`, `resolutionChangeRequests`); the
  api calls themselves are modelled as succeeding, which is the path the
  claims under study are about.
-/

/-- `resolution_s` (the repo's resolution record, used with fields
`w`, `h`, `bpp` throughout `capture.cpp` and `scaler.cpp`). -/
structure resolution_s where
  w : Nat
  h : Nat
  bpp : Nat
deriving DecidableEq, Repr

/-- A bare (w, h) pair. Modelled from the spec: the spec's **Alias** is
`{from: (w,h), to: (w,h)}` and a mode's identity is `resolution.(w,h)`
with bpp ignored; the header declaring `mode_alias_s` is not among the
given sources, so alias and mode keys are embedded as (w, h) pairs. -/
structure res_pair where
  w : Nat
  h : Nat
deriving DecidableEq, Repr

/-- `input_color_settings_s`: the eight driver colour parameters. -/
structure input_color_settings_s where
  bright : Int
  contr : Int
  redBright : Int
  greenBright : Int
  blueBright : Int
  redContr : Int
  greenContr : Int
  blueContr : Int
deriving DecidableEq, Repr

/-- `input_video_settings_s`: the five driver geometry parameters. -/
structure input_video_settings_s where
  phase : Int
  blackLevel : Int
  horPos : Int
  verPos : Int
  horScale : Int
deriving DecidableEq, Repr

/-- `mode_alias_s`: one resolution standing in for another
(`from`/`to` in the source; `from` is a reserved word in Lean). -/
structure mode_alias_s where
  fromRes : res_pair
  toRes : res_pair
deriving DecidableEq, Repr

/-- `mode_params_s`: per-resolution capture parameters (capture.cpp's
`KNOWN_MODES` entries). -/
structure mode_params_s where
  r : res_pair
  color : input_color_settings_s
  video : input_video_settings_s
deriving DecidableEq, Repr

/-- `capture_event_e`: the events `kc_get_next_capture_event` emits. -/
inductive capture_event_e where
  | CEVENT_NEW_FRAME
  | CEVENT_NEW_VIDEO_MODE
  | CEVENT_NO_SIGNAL
  | CEVENT_INVALID_SIGNAL
  | CEVENT_SLEEP
  | CEVENT_UNRECOVERABLE_ERROR
  | CEVENT_NONE
deriving DecidableEq, Repr

/-- Modulus of the C++ `unsigned int` counters. -/
def U32_MOD : Nat := 2 ^ 32

/-- `MAX_BIT_DEPTH` (capture.cpp:77). -/
def MAX_BIT_DEPTH : Nat := 32

/-- The file-scope statics of capture.cpp together with the driver-side
state observed and mutated through the RGBEasy calls the unit makes. -/
structure CaptureState where
  CNT_FRAMES_PROCESSED : Nat
  CNT_FRAMES_CAPTURED : Nat
  CNT_FRAMES_SKIPPED : Nat
  RECEIVING_A_SIGNAL : Bool
  UNRECOVERABLE_CAPTURE_ERROR : Bool
  SIGNAL_IS_INVALID : Bool
  SIGNAL_WAS_LOST : Bool
  SIGNAL_BECAME_INVALID : Bool
  RECEIVED_NEW_VIDEO_MODE : Bool
  SIGNAL_WOKE_UP : Bool
  IS_ALIASED_INPUT_RESOLUTION : Bool
  SKIP_NEXT_NUM_FRAMES : Nat
  ALIASES : List mode_alias_s
  KNOWN_MODES : List mode_params_s
  FRAME_BUFFER_r : resolution_s
  /-- driver state: what `status.capture_resolution()` reports (w, h). -/
  hwCaptureRes : res_pair
  /-- driver state: `status.video_settings()`. -/
  hwVideoSettings : input_video_settings_s
  /-- driver state: `meta.minimum_video_settings()`. -/
  hwMinVideoSettings : input_video_settings_s
  /-- driver state: `meta.maximum_video_settings()`. -/
  hwMaxVideoSettings : input_video_settings_s
  /-- driver state: `meta.default_color_settings()`. -/
  hwDefaultColorSettings : input_color_settings_s
  /-- driver state: `meta.default_video_settings()`. -/
  hwDefaultVideoSettings : input_video_settings_s
  /-- trace: every value the engine passed to `RGBSetVerPosition`. -/
  verPosWrites : List Int
  /-- trace: the resolutions `kc_apply_mode_parameters` was run for. -/
  appliedModeParams : List res_pair
  /-- trace: the resolutions passed to `kmain_change_capture_input_resolution`. -/
  resolutionChangeRequests : List res_pair
deriving DecidableEq, Repr

/-- `rgbeasy_callbacks_n::frame_captured` (capture.cpp:156-207).
The Bool arguments are the per-invocation conditions tested on the way
to the `done:` label: `PROGRAM_EXIT_REQUESTED`, `frameData == nullptr`,
`frameInfo == nullptr` and `FRAME_BUFFER.pixels.is_null()`; `frameRes`
carries the header's `biWidth`, `|biHeight|`, `biBitCount`. The pixel
copy itself is not modelled, only the published resolution. -/
def frame_captured (exitRequested frameDataNull frameInfoNull bufferNull : Bool)
    (frameRes : resolution_s) (s : CaptureState) : CaptureState :=
  if s.CNT_FRAMES_CAPTURED ≠ s.CNT_FRAMES_PROCESSED then
    { s with CNT_FRAMES_SKIPPED := (s.CNT_FRAMES_SKIPPED + 1) % U32_MOD }
  else
    let s1 :=
      if exitRequested ∨ frameDataNull ∨ frameInfoNull ∨ bufferNull ∨
          frameRes.bpp > MAX_BIT_DEPTH then
        s
      else
        { s with FRAME_BUFFER_r := frameRes }
    { s1 with CNT_FRAMES_CAPTURED := (s1.CNT_FRAMES_CAPTURED + 1) % U32_MOD }

/-- `kc_mark_frame_buffer_as_processed` (capture.cpp:691-701). -/
def kc_mark_frame_buffer_as_processed (s : CaptureState) : CaptureState :=
  let s1 := { s with CNT_FRAMES_PROCESSED := s.CNT_FRAMES_CAPTURED }
  if s1.SKIP_NEXT_NUM_FRAMES > 0 then
    { s1 with SKIP_NEXT_NUM_FRAMES := s1.SKIP_NEXT_NUM_FRAMES - 1 }
  else
    s1

/-- `kc_get_next_capture_event` (capture.cpp:718-761): returns the event
and the state after the function's own flag updates. -/
def kc_get_next_capture_event (s : CaptureState) :
    capture_event_e × CaptureState :=
  if s.UNRECOVERABLE_CAPTURE_ERROR then
    (.CEVENT_UNRECOVERABLE_ERROR, s)
  else if s.RECEIVED_NEW_VIDEO_MODE then
    (.CEVENT_NEW_VIDEO_MODE,
      { s with RECEIVING_A_SIGNAL := true, SIGNAL_IS_INVALID := false })
  else if s.SIGNAL_WAS_LOST then
    (.CEVENT_NO_SIGNAL,
      { s with RECEIVING_A_SIGNAL := false, SIGNAL_WAS_LOST := false })
  else if s.RECEIVING_A_SIGNAL = false then
    (.CEVENT_SLEEP, s)
  else if s.SIGNAL_BECAME_INVALID then
    (.CEVENT_INVALID_SIGNAL,
      { s with RECEIVING_A_SIGNAL := false, SIGNAL_IS_INVALID := true,
               SIGNAL_BECAME_INVALID := false })
  else if s.SIGNAL_IS_INVALID then
    (.CEVENT_SLEEP, s)
  else if s.CNT_FRAMES_CAPTURED ≠ s.CNT_FRAMES_PROCESSED then
    (.CEVENT_NEW_FRAME, s)
  else
    (.CEVENT_NONE, s)

/-- Whether an alias entry's `from` key matches the resolution `r`
(the comparison `ALIASES[i].from.w == r.w && ALIASES[i].from.h == r.h`). -/
def aliasMatches (a : mode_alias_s) (r : res_pair) : Bool :=
  a.fromRes.w == r.w && a.fromRes.h == r.h

/-- The search loop of `kc_alias_resolution_index`, with the running
index made explicit. -/
def kc_alias_resolution_index_loop (aliases : List mode_alias_s)
    (r : res_pair) (i : Nat) : Int :=
  match aliases with
  | [] => -1
  | a :: rest =>
    if aliasMatches a r then (i : Int)
    else kc_alias_resolution_index_loop rest r (i + 1)

/-- `kc_alias_resolution_index` (capture.cpp:577-590): index of the first
alias whose `from` matches, or -1. -/
def kc_alias_resolution_index (aliases : List mode_alias_s) (r : res_pair) : Int :=
  kc_alias_resolution_index_loop aliases r 0

/-- `kc_mode_params_for_resolution` (capture.cpp:592-607): first stored
mode matching (w, h), else a fresh default entry (not inserted). -/
def kc_mode_params_for_resolution (s : CaptureState) (r : res_pair) : mode_params_s :=
  match s.KNOWN_MODES.find? (fun m => m.r.w == r.w && m.r.h == r.h) with
  | some m => m
  | none =>
    { r := r, color := s.hwDefaultColorSettings, video := s.hwDefaultVideoSettings }

/-- `kc_force_capture_input_resolution` (capture.cpp:530-575). A request
equal to the current input resolution is refused (`goto fail`) before any
driver call; otherwise the RGBTest/Set calls are modelled as succeeding,
the driver switches to `r`, and `SKIP_NEXT_NUM_FRAMES += 2`. -/
def kc_force_capture_input_resolution (r : res_pair) (s : CaptureState) :
    Bool × CaptureState :=
  if r.w == s.hwCaptureRes.w && r.h == s.hwCaptureRes.h then
    (false, s)
  else
    (true, { s with hwCaptureRes := r,
                    SKIP_NEXT_NUM_FRAMES := (s.SKIP_NEXT_NUM_FRAMES + 2) % U32_MOD })

/-- `kc_apply_mode_parameters` (capture.cpp:609-632): looks up the params
for `r` and writes every one of them to the driver; the embedding records
the resolution applied and the exact `verPos` value written. -/
def kc_apply_mode_parameters (r : res_pair) (s : CaptureState) :
    Bool × CaptureState :=
  let p := kc_mode_params_for_resolution s r
  (true, { s with verPosWrites := s.verPosWrites ++ [p.video.verPos],
                  appliedModeParams := s.appliedModeParams ++ [r] })

/-- `aliased` (capture.cpp:643-671). When an alias for `r` exists the
source passes `r` itself — not the alias target `newRes` — to
`kc_force_capture_input_resolution` (capture.cpp:653). -/
def aliased (r : res_pair) (s : CaptureState) : res_pair × CaptureState :=
  match kc_alias_resolution_index s.ALIASES r with
  | Int.negSucc _ => (r, { s with IS_ALIASED_INPUT_RESOLUTION := false })
  | Int.ofNat aliasIdx =>
    let newRes := ((s.ALIASES.get? aliasIdx).getD ⟨⟨0, 0⟩, ⟨0, 0⟩⟩).toRes
    let call := kc_force_capture_input_resolution r s
    if call.1 = false then
      (r, { call.2 with IS_ALIASED_INPUT_RESOLUTION := false })
    else
      (newRes, { call.2 with IS_ALIASED_INPUT_RESOLUTION := true })

/-- `kc_apply_new_capture_resolution` (capture.cpp:673-684). -/
def kc_apply_new_capture_resolution (s : CaptureState) : CaptureState :=
  let rs := aliased s.hwCaptureRes s
  let s2 := (kc_apply_mode_parameters rs.1 rs.2).2
  { s2 with RECEIVED_NEW_VIDEO_MODE := false }

/-- `kc_no_signal` (capture.cpp:708-711). -/
def kc_no_signal (s : CaptureState) : Bool :=
  !s.RECEIVING_A_SIGNAL

/-- `kc_update_alias_resolutions` (capture.cpp:937-958): replaces
`ALIASES` with the given list as-is; if a signal is present and some
alias' `from` matches the current input resolution, asks the engine (via
`kmain_change_capture_input_resolution`, recorded in the trace) to switch
to that alias' `to` — first match, then `break`. -/
def kc_update_alias_resolutions (aliases : List mode_alias_s)
    (s : CaptureState) : CaptureState :=
  let s1 := { s with ALIASES := aliases }
  if kc_no_signal s1 = false then
    match s1.ALIASES.find? (fun a => aliasMatches a s1.hwCaptureRes) with
    | some a =>
      { s1 with resolutionChangeRequests := s1.resolutionChangeRequests ++ [a.toRes] }
    | none => s1
  else
    s1

/-- `kc_adjust_capture_vertical_offset` (capture.cpp:370-390): a zero
delta returns true at once; a new position below `max(2, driver minimum
verPos)` or above the driver maximum returns false without any driver
call; otherwise `RGBSetVerPosition(newPos)` is issued (modelled as
succeeding and reflected in the driver state and the write trace). -/
def kc_adjust_capture_vertical_offset (delta : Int) (s : CaptureState) :
    Bool × CaptureState :=
  if delta = 0 then
    (true, s)
  else
    let newPos := s.hwVideoSettings.verPos + delta
    if newPos < max 2 s.hwMinVideoSettings.verPos ∨
        newPos > s.hwMaxVideoSettings.verPos then
      (false, s)
    else
      (true, { s with
                 verPosWrites := s.verPosWrites ++ [newPos],
                 hwVideoSettings := { s.hwVideoSettings with verPos := newPos } })

/-- All-zero colour settings, used to populate sample states. -/
def zeroColorSettings : input_color_settings_s :=
  { bright := 0, contr := 0, redBright := 0, greenBright := 0,
    blueBright := 0, redContr := 0, greenContr := 0, blueContr := 0 }

/-- All-zero geometry settings, used to populate sample states. -/
def zeroVideoSettings : input_video_settings_s :=
  { phase := 0, blackLevel := 0, horPos := 0, verPos := 0, horScale := 0 }

/-- A baseline state: counters and flags at their initial values
(capture.cpp:25-94), a signal being received, no aliases or known modes. -/
def initialCaptureState : CaptureState :=
  { CNT_FRAMES_PROCESSED := 0, CNT_FRAMES_CAPTURED := 0, CNT_FRAMES_SKIPPED := 0,
    RECEIVING_A_SIGNAL := true, UNRECOVERABLE_CAPTURE_ERROR := false,
    SIGNAL_IS_INVALID := false, SIGNAL_WAS_LOST := false,
    SIGNAL_BECAME_INVALID := false, RECEIVED_NEW_VIDEO_MODE := false,
    SIGNAL_WOKE_UP := false, IS_ALIASED_INPUT_RESOLUTION := false,
    SKIP_NEXT_NUM_FRAMES := 0, ALIASES := [], KNOWN_MODES := [],
    FRAME_BUFFER_r := { w := 640, h := 480, bpp := 32 },
    hwCaptureRes := { w := 640, h := 480 },
    hwVideoSettings := zeroVideoSettings,
    hwMinVideoSettings := zeroVideoSettings,
    hwMaxVideoSettings := zeroVideoSettings,
    hwDefaultColorSettings := zeroColorSettings,
    hwDefaultVideoSettings := zeroVideoSettings,
    verPosWrites := [], appliedModeParams := [], resolutionChangeRequests := [] }

/-- `OUTPUT_BIT_DEPTH` (scaler.cpp:59). -/
def OUTPUT_BIT_DEPTH : Nat := 32

/-- Modelled from the spec: `MAX_OUTPUT_WIDTH` lives in the absent
`common/globals.h`; capture.cpp:1577-1596 fixes the non-RGBEasy maximum
capture resolution at 1920 x 1260 and capture.cpp:911-914 asserts it to
be no larger than the maximum output resolution. -/
def MAX_OUTPUT_WIDTH : Nat := 1920

/-- Modelled from the spec: `MAX_OUTPUT_HEIGHT` (see `MAX_OUTPUT_WIDTH`). -/
def MAX_OUTPUT_HEIGHT : Nat := 1260

/-- Modelled from the spec: `MIN_OUTPUT_WIDTH` from the absent
`common/globals.h`; the spec only requires a positive lower output
bound (the clamp to `[MIN_OUT, MAX_OUT]`). -/
def MIN_OUTPUT_WIDTH : Nat := 160

/-- Modelled from the spec: `MIN_OUTPUT_HEIGHT` (see `MIN_OUTPUT_WIDTH`). -/
def MIN_OUTPUT_HEIGHT : Nat := 100

/-- C's `round()` on a non-negative value: round half away from zero,
which on non-negative input is round half up. The C++ `real` scale factor
is embedded as a rational. -/
def roundHalfUp (q : ℚ) : Nat :=
  (⌊q + 1 / 2⌋).toNat

/-- The file-scope statics of scaler.cpp that `ks_output_resolution`
reads, plus the recording state it queries from the recorder. -/
structure ScalerState where
  /-- `krecord_is_recording()`. -/
  isRecording : Bool
  /-- `krecord_video_resolution()` (w, h). -/
  recordingRes : res_pair
  FORCE_BASE_RESOLUTION : Bool
  BASE_RESOLUTION : resolution_s
  FORCE_SCALING : Bool
  OUTPUT_SCALING : ℚ
deriving DecidableEq, Repr

/-- `ks_output_resolution` (scaler.cpp:99-149). `inRes` is what
`kc_hardware().status.capture_resolution()` reports. Note the width
bounds-check branch (scaler.cpp:127-130) assigns `MAX_OUTPUT_HEIGHT`. -/
def ks_output_resolution (s : ScalerState) (inRes : resolution_s) : resolution_s :=
  if s.isRecording then
    { w := s.recordingRes.w, h := s.recordingRes.h, bpp := OUTPUT_BIT_DEPTH }
  else
    let outRes0 := if s.FORCE_BASE_RESOLUTION then s.BASE_RESOLUTION else inRes
    let outRes1 :=
      if s.FORCE_SCALING then
        { outRes0 with
            w := roundHalfUp ((outRes0.w : ℚ) * s.OUTPUT_SCALING),
            h := roundHalfUp ((outRes0.h : ℚ) * s.OUTPUT_SCALING) }
      else outRes0
    let outRes2 :=
      if outRes1.w > MAX_OUTPUT_WIDTH then
        { outRes1 with w := MAX_OUTPUT_HEIGHT }
      else if outRes1.w < MIN_OUTPUT_WIDTH then
        { outRes1 with w := MIN_OUTPUT_WIDTH }
      else outRes1
    let outRes3 :=
      if outRes2.h > MAX_OUTPUT_HEIGHT then
        { outRes2 with h := MAX_OUTPUT_HEIGHT }
      else if outRes2.h < MIN_OUTPUT_HEIGHT then
        { outRes2 with h := MIN_OUTPUT_HEIGHT }
      else outRes2
    { outRes3 with bpp := OUTPUT_BIT_DEPTH }

/-- `PIXELFORMAT`: the capture pixel formats capture.cpp knows. -/
inductive PIXELFORMAT where
  | RGB_PIXELFORMAT_888
  | RGB_PIXELFORMAT_565
  | RGB_PIXELFORMAT_555
deriving DecidableEq, Repr

/-- The OpenCV colour-conversion codes `s_convert_frame_to_bgra` can pick;
`UNSET` is the `u32 conversionType = 0` initial value. -/
inductive cv_colorconv where
  | UNSET
  | CV_BGR5652BGRA
  | CV_BGR5552BGRA
  | CV_RGBA2BGRA
  | CV_BGR2BGRA
deriving DecidableEq, Repr

/-- The conversion-code selection of `s_convert_frame_to_bgra`
(scaler.cpp:404-452), as a function of the current capture pixel format
(`kc_pixel_format()`) and the frame's bit depth. In the fallback branch
the source tests `if (frame.r.bpp == 32) ... if (frame.r.bpp == 24) ...
else ...` (scaler.cpp:431-442): the second `if` is not chained to the
first, so its two arms overwrite whatever the first one assigned. -/
def s_convert_frame_to_bgra (fmt : PIXELFORMAT) (bpp : Nat) : cv_colorconv :=
  if fmt = PIXELFORMAT.RGB_PIXELFORMAT_565 then
    cv_colorconv.CV_BGR5652BGRA
  else if fmt = PIXELFORMAT.RGB_PIXELFORMAT_555 then
    cv_colorconv.CV_BGR5552BGRA
  else
    let conversionType := cv_colorconv.UNSET
    let conversionType :=
      if bpp = 32 then cv_colorconv.CV_RGBA2BGRA else conversionType
    let conversionType :=
      if bpp = 24 then cv_colorconv.CV_BGR2BGRA else cv_colorconv.CV_BGR5652BGRA
    conversionType

/-- `scaling_filter_s` (scaler.h): a named scaling filter. The `scale`
function pointer is not modelled; the claims are about filter selection. -/
structure scaling_filter_s where
  name : String
deriving DecidableEq, Repr

/-- `SCALING_FILTERS` (scaler.cpp:36-45), the OpenCV build's catalogue. -/
def SCALING_FILTERS : List scaling_filter_s :=
  [ { name := "Nearest" }, { name := "Linear" }, { name := "Area" },
    { name := "Cubic" }, { name := "Lanczos" } ]

/-- `ks_scaler_for_name_string` (scaler.cpp:701-724): the search loop
returns the first filter whose name matches; after the loop the fallback
assigns the catalogue's first entry. `none` is the initial null pointer,
which survives only if both are impossible. -/
def ks_scaler_for_name_string (name : String) : Option scaling_filter_s :=
  match SCALING_FILTERS.find? (fun f => f.name == name) with
  | some f => some f
  | none => SCALING_FILTERS.head?

/-- The event priority of the spec's `next_event()` (first match wins),
written from the spec's numbered list for comparison with the source's
`kc_get_next_capture_event`. -/
def spec_next_event_priority (s : CaptureState) : capture_event_e :=
  if s.UNRECOVERABLE_CAPTURE_ERROR then .CEVENT_UNRECOVERABLE_ERROR
  else if s.RECEIVED_NEW_VIDEO_MODE then .CEVENT_NEW_VIDEO_MODE
  else if s.SIGNAL_WAS_LOST then .CEVENT_NO_SIGNAL
  else if s.RECEIVING_A_SIGNAL = false then .CEVENT_SLEEP
  else if s.SIGNAL_BECAME_INVALID then .CEVENT_INVALID_SIGNAL
  else if s.SIGNAL_IS_INVALID then .CEVENT_SLEEP
  else if s.CNT_FRAMES_CAPTURED ≠ s.CNT_FRAMES_PROCESSED then .CEVENT_NEW_FRAME
  else .CEVENT_NONE

/-- One driver frame callback with a valid frame while running normally. -/
def onFrameStep (s : CaptureState) : CaptureState :=
  frame_captured false false false false { w := 640, h := 480, bpp := 32 } s

/-- Four back-to-back `on_frame` callbacks from cleared counters with no
`mark_processed` in between. -/
def backPressureRun : CaptureState :=
  onFrameStep (onFrameStep (onFrameStep (onFrameStep initialCaptureState)))

/-- C2 counterexample: after four back-to-back `on_frame` callbacks from
`captured = processed = 0` the counters are NOT `captured = 4,
processed = 0, skipped = 3`: the fast drop path returns before the
`captured++` at the `done:` label, so `captured` stays at 1. -/
theorem backpressure_captured_count_counterexample :
    ¬ (backPressureRun.CNT_FRAMES_CAPTURED = 4 ∧
       backPressureRun.CNT_FRAMES_PROCESSED = 0 ∧
       backPressureRun.CNT_FRAMES_SKIPPED = 3) := by
  decide

/-- C2 amended: four back-to-back `on_frame` callbacks from
`captured = processed = 0` give `captured = 1, processed = 0,
skipped = 3`: the first frame is accepted (advancing `captured` to 1) and
each of the next three is dropped on the fast path, which increments
`skipped` only and leaves `captured` untouched. -/
theorem backpressure_drop_counts :
    (onFrameStep initialCaptureState).CNT_FRAMES_CAPTURED = 1 ∧
    (onFrameStep initialCaptureState).CNT_FRAMES_SKIPPED = 0 ∧
    backPressureRun.CNT_FRAMES_CAPTURED = 1 ∧
    backPressureRun.CNT_FRAMES_PROCESSED = 0 ∧
    backPressureRun.CNT_FRAMES_SKIPPED = 3 := by
  decide

/-- A state whose only pending condition is a freshly received video mode. -/
def newModeState : CaptureState :=
  { initialCaptureState with RECEIVED_NEW_VIDEO_MODE := true }

/-- C3 counterexample: `kc_get_next_capture_event` on a state with
`RECEIVED_NEW_VIDEO_MODE` set emits `CEVENT_NEW_VIDEO_MODE` but does NOT
consume the flag: it is still true after the call (it is cleared later,
by `kc_apply_new_capture_resolution`). -/
theorem next_event_keeps_new_mode_flag :
    (kc_get_next_capture_event newModeState).1 =
      capture_event_e.CEVENT_NEW_VIDEO_MODE ∧
    ¬ (kc_get_next_capture_event newModeState).2.RECEIVED_NEW_VIDEO_MODE = false := by
  decide

/-- C3 amended: for every state, `kc_get_next_capture_event` returns the
first matching event of the spec's priority order; in the NewVideoMode
branch it sets the signal state to Receiving and clears the
invalid-signal flag but leaves `RECEIVED_NEW_VIDEO_MODE` set; the flag is
consumed by `kc_apply_new_capture_resolution`, which always resets it. -/
theorem next_event_priority_and_new_mode_effects (s : CaptureState) :
    (kc_get_next_capture_event s).1 = spec_next_event_priority s ∧
    ((kc_get_next_capture_event s).1 = capture_event_e.CEVENT_NEW_VIDEO_MODE →
      (kc_get_next_capture_event s).2.RECEIVING_A_SIGNAL = true ∧
      (kc_get_next_capture_event s).2.SIGNAL_IS_INVALID = false ∧
      (kc_get_next_capture_event s).2.RECEIVED_NEW_VIDEO_MODE =
        s.RECEIVED_NEW_VIDEO_MODE) ∧
    (kc_apply_new_capture_resolution s).RECEIVED_NEW_VIDEO_MODE = false := by
  refine ⟨?_, ?_, rfl⟩
  · unfold kc_get_next_capture_event spec_next_event_priority
    split_ifs <;> rfl
  · unfold kc_get_next_capture_event
    split_ifs <;> simp_all

/-- C3 witness: the NewVideoMode-branch consequences at a concrete state. -/
theorem next_event_priority_witness :
    (kc_get_next_capture_event newModeState).2.RECEIVING_A_SIGNAL = true ∧
    (kc_get_next_capture_event newModeState).2.SIGNAL_IS_INVALID = false ∧
    (kc_get_next_capture_event newModeState).2.RECEIVED_NEW_VIDEO_MODE =
      newModeState.RECEIVED_NEW_VIDEO_MODE :=
  (next_event_priority_and_new_mode_effects newModeState).2.1 (by decide)

/-- C9: `kc_mark_frame_buffer_as_processed` establishes
`captured == processed`, decrements `SKIP_NEXT_NUM_FRAMES` by exactly one
when it is positive, and leaves it at zero when it is already zero. -/
theorem mark_processed_establishes_equality (s : CaptureState) :
    (kc_mark_frame_buffer_as_processed s).CNT_FRAMES_PROCESSED =
      (kc_mark_frame_buffer_as_processed s).CNT_FRAMES_CAPTURED ∧
    (0 < s.SKIP_NEXT_NUM_FRAMES →
      (kc_mark_frame_buffer_as_processed s).SKIP_NEXT_NUM_FRAMES =
        s.SKIP_NEXT_NUM_FRAMES - 1) ∧
    (s.SKIP_NEXT_NUM_FRAMES = 0 →
      (kc_mark_frame_buffer_as_processed s).SKIP_NEXT_NUM_FRAMES = 0) := by
  unfold kc_mark_frame_buffer_as_processed
  by_cases h : s.SKIP_NEXT_NUM_FRAMES > 0 <;> simp [h] <;> omega

/-- A state mid-stream: counters apart, several frames still to skip. -/
def markSampleState : CaptureState :=
  { initialCaptureState with CNT_FRAMES_CAPTURED := 7,
                             CNT_FRAMES_PROCESSED := 2,
                             SKIP_NEXT_NUM_FRAMES := 3 }

/-- C9 witness: the `mark_processed` postconditions at a concrete state. -/
theorem mark_processed_witness :
    (kc_mark_frame_buffer_as_processed markSampleState).CNT_FRAMES_PROCESSED =
      (kc_mark_frame_buffer_as_processed markSampleState).CNT_FRAMES_CAPTURED ∧
    (kc_mark_frame_buffer_as_processed markSampleState).SKIP_NEXT_NUM_FRAMES =
      markSampleState.SKIP_NEXT_NUM_FRAMES - 1 :=
  ⟨(mark_processed_establishes_equality markSampleState).1,
   (mark_processed_establishes_equality markSampleState).2.1 (by decide)⟩

/-- The alias list {(800,600) → (1024,768)} with the capture hardware
reporting 800 x 600, right before a NewVideoMode event is handled. -/
def aliasSwitchState : CaptureState :=
  { initialCaptureState with
      ALIASES := [ { fromRes := { w := 800, h := 600 },
                     toRes := { w := 1024, h := 768 } } ],
      hwCaptureRes := { w := 800, h := 600 } }

/-- The state after the NewVideoMode handler ran on `aliasSwitchState`. -/
def aliasSwitchResult : CaptureState :=
  kc_apply_new_capture_resolution aliasSwitchState

/-- C1 (code bug): handling NewVideoMode with alias
{(800,600) → (1024,768)} and the capture reporting 800 x 600 does NOT
force the device to 1024 x 768: `aliased` passes the current resolution
`r` — not the alias target — to `kc_force_capture_input_resolution`
(capture.cpp:653), which refuses a resolution equal to the current one,
so the device stays at 800 x 600, the mode parameters are applied keyed
on 800 x 600, `SKIP_NEXT_NUM_FRAMES` stays 0 and the aliased flag ends up
false. -/
theorem alias_switch_forces_from_resolution :
    (kc_force_capture_input_resolution { w := 800, h := 600 } aliasSwitchState).1 =
      false ∧
    aliasSwitchResult.hwCaptureRes = { w := 800, h := 600 } ∧
    aliasSwitchResult.hwCaptureRes ≠ { w := 1024, h := 768 } ∧
    aliasSwitchResult.appliedModeParams = [ { w := 800, h := 600 } ] ∧
    aliasSwitchResult.SKIP_NEXT_NUM_FRAMES = 0 ∧
    aliasSwitchResult.IS_ALIASED_INPUT_RESOLUTION = false := by
  decide

/-- A scaler state forcing a base resolution wider and taller than the
maximum output size, with no recording and no relative scaling. -/
def oversizedBaseState : ScalerState :=
  { isRecording := false, recordingRes := { w := 0, h := 0 },
    FORCE_BASE_RESOLUTION := true,
    BASE_RESOLUTION := { w := 2560, h := 1440, bpp := 32 },
    FORCE_SCALING := false, OUTPUT_SCALING := 1 }

/-- The capture resolution used alongside `oversizedBaseState`. -/
def capture640 : resolution_s := { w := 640, h := 480, bpp := 32 }

/-- C4 (code bug): a width exceeding `MAX_OUTPUT_WIDTH` is assigned
`MAX_OUTPUT_HEIGHT` (scaler.cpp:129), not `MAX_OUTPUT_WIDTH`: for a
forced base resolution of 2560 x 1440 the derived output width is 1260,
not 1920. The height clamp and the fixed 32-bit output depth behave as
claimed. -/
theorem output_resolution_width_clamp_eval :
    (ks_output_resolution oversizedBaseState capture640).w = MAX_OUTPUT_HEIGHT ∧
    (ks_output_resolution oversizedBaseState capture640).w ≠ MAX_OUTPUT_WIDTH ∧
    (ks_output_resolution oversizedBaseState capture640).h = MAX_OUTPUT_HEIGHT ∧
    (ks_output_resolution oversizedBaseState capture640).bpp = 32 := by
  decide

/-- C5 (code bug): in the unknown-format fallback of
`s_convert_frame_to_bgra` the `if (frame.r.bpp == 24) ... else ...`
statement is not chained to the preceding `if (frame.r.bpp == 32)`
(scaler.cpp:431-442), so its else-arm overwrites the 32-bpp choice: a
32-bpp frame gets the RGB565 conversion instead of RGBA→BGRA. The
24-bpp and the residual cases, and the two recognised formats, behave as
claimed. -/
theorem convert_to_bgra_fallback_eval :
    s_convert_frame_to_bgra PIXELFORMAT.RGB_PIXELFORMAT_888 32 =
      cv_colorconv.CV_BGR5652BGRA ∧
    s_convert_frame_to_bgra PIXELFORMAT.RGB_PIXELFORMAT_888 32 ≠
      cv_colorconv.CV_RGBA2BGRA ∧
    s_convert_frame_to_bgra PIXELFORMAT.RGB_PIXELFORMAT_888 24 =
      cv_colorconv.CV_BGR2BGRA ∧
    s_convert_frame_to_bgra PIXELFORMAT.RGB_PIXELFORMAT_888 16 =
      cv_colorconv.CV_BGR5652BGRA ∧
    s_convert_frame_to_bgra PIXELFORMAT.RGB_PIXELFORMAT_565 16 =
      cv_colorconv.CV_BGR5652BGRA ∧
    s_convert_frame_to_bgra PIXELFORMAT.RGB_PIXELFORMAT_555 15 =
      cv_colorconv.CV_BGR5552BGRA := by
  decide

/-- An alias of (1,1) to (2,2). -/
def dupAliasA : mode_alias_s :=
  { fromRes := { w := 1, h := 1 }, toRes := { w := 2, h := 2 } }

/-- A second alias of the same `from` key (1,1), to (3,3). -/
def dupAliasB : mode_alias_s :=
  { fromRes := { w := 1, h := 1 }, toRes := { w := 3, h := 3 } }

/-- The state after loading an alias list with a duplicated `from` key. -/
def dupAliasState : CaptureState :=
  kc_update_alias_resolutions [dupAliasA, dupAliasB] initialCaptureState

/-- C6 counterexample: after `kc_update_alias_resolutions` with two
aliases sharing the `from` key (1,1), the stored list still holds both
(no deduplication happens), and lookup resolves to the FIRST occurrence
(target (2,2)), so the claimed conjunction (at most one alias per key,
last occurrence wins) is false. -/
theorem set_aliases_duplicate_counterexample :
    ¬ ((dupAliasState.ALIASES.countP
          (fun a => aliasMatches a { w := 1, h := 1 }) ≤ 1) ∧
       ((dupAliasState.ALIASES.get?
           (kc_alias_resolution_index dupAliasState.ALIASES
             { w := 1, h := 1 }).toNat).getD dupAliasA).toRes =
         { w := 3, h := 3 }) := by
  decide

/-- The index loop skips a non-matching prefix and stops at the first
matching alias, returning the running index reached there. -/
theorem alias_index_loop_first_match (r : res_pair) (a : mode_alias_s)
    (rest : List mode_alias_s) (ha : aliasMatches a r = true) :
    ∀ (pre : List mode_alias_s) (k : Nat),
      (∀ b ∈ pre, aliasMatches b r = false) →
      kc_alias_resolution_index_loop (pre ++ a :: rest) r k =
        ((k + pre.length : Nat) : Int) := by
  intro pre
  induction pre with
  | nil =>
    intro k _
    simp [kc_alias_resolution_index_loop, ha]
  | cons b pre ih =>
    intro k hpre
    have hb : aliasMatches b r = false := hpre b (by simp)
    have hrec := ih (k + 1) (fun x hx => hpre x (List.mem_cons_of_mem _ hx))
    have hlen : k + (b :: pre).length = k + 1 + pre.length := by
      simp only [List.length_cons]
      omega
    rw [List.cons_append, hlen, kc_alias_resolution_index_loop]
    simp [hb, hrec]

/-- C6 amended: `kc_update_alias_resolutions` stores the given alias list
verbatim — duplicate `from` keys included — and alias lookup
(`kc_alias_resolution_index`) resolves to the first occurrence of a
matching `from` key in the stored list. -/
theorem set_aliases_stores_verbatim_first_match
    (s : CaptureState) (r : res_pair) (pre rest : List mode_alias_s)
    (a : mode_alias_s) (hpre : ∀ b ∈ pre, aliasMatches b r = false)
    (ha : aliasMatches a r = true) :
    (kc_update_alias_resolutions (pre ++ a :: rest) s).ALIASES =
      pre ++ a :: rest ∧
    kc_alias_resolution_index (pre ++ a :: rest) r = (pre.length : Int) ∧
    (pre ++ a :: rest).get? pre.length = some a := by
  refine ⟨?_, ?_, ?_⟩
  · by_cases hsig : s.RECEIVING_A_SIGNAL <;>
      · simp only [kc_update_alias_resolutions, kc_no_signal, hsig]
        cases hf : (pre ++ a :: rest).find? (fun x => aliasMatches x s.hwCaptureRes) <;>
          simp [hf]
  · have h := alias_index_loop_first_match r a rest ha pre 0 hpre
    simpa [kc_alias_resolution_index] using h
  · rw [List.get?_append_right (Nat.le_refl _)]
    simp

/-- C6 witness: the amended statement at the duplicated-key alias list,
showing the first occurrence (target (2,2)) is the one resolved. -/
theorem set_aliases_first_match_witness :
    (kc_update_alias_resolutions [dupAliasA, dupAliasB]
        initialCaptureState).ALIASES = [dupAliasA, dupAliasB] ∧
    kc_alias_resolution_index [dupAliasA, dupAliasB] { w := 1, h := 1 } = 0 ∧
    [dupAliasA, dupAliasB].get? 0 = some dupAliasA := by
  have h := set_aliases_stores_verbatim_first_match initialCaptureState
    { w := 1, h := 1 } [] [dupAliasB] dupAliasA (by simp) (by decide)
  simpa using h

/-- A stored mode whose geometry has `verPos = 0`, below the claimed
floor of 2. -/
def lowVerPosMode : mode_params_s :=
  { r := { w := 640, h := 480 }, color := zeroColorSettings,
    video := { zeroVideoSettings with verPos := 0 } }

/-- A state knowing only `lowVerPosMode`. -/
def lowVerPosState : CaptureState :=
  { initialCaptureState with KNOWN_MODES := [lowVerPosMode] }

/-- C7 counterexample: `kc_apply_mode_parameters` writes the stored
`verPos` to the driver with no clamping (capture.cpp:621), so applying a
stored mode whose `verPos` is 0 sends a value below 2 — refuting the
claim that no geometry-writing operation sends `verPos < 2`. -/
theorem apply_mode_parameters_writes_low_verpos :
    (kc_apply_mode_parameters { w := 640, h := 480 } lowVerPosState).2.verPosWrites
      = [0] ∧
    ¬ (∀ v ∈ (kc_apply_mode_parameters { w := 640, h := 480 }
          lowVerPosState).2.verPosWrites, 2 ≤ v) := by
  decide

/-- C7 amended: the `max(2, driver minimum)` floor holds for
`kc_adjust_capture_vertical_offset` only: a nonzero delta landing below
`max 2 min.verPos` or above `max.verPos` returns false with no driver
write, and a zero delta returns true with no write; but
`kc_apply_mode_parameters` writes the stored `verPos` verbatim,
unclamped, so values below 2 can be sent when applying stored modes. -/
theorem vertical_offset_guard_and_apply_unclamped (s : CaptureState)
    (delta : Int) (hnz : delta ≠ 0)
    (hout : s.hwVideoSettings.verPos + delta < max 2 s.hwMinVideoSettings.verPos ∨
            s.hwVideoSettings.verPos + delta > s.hwMaxVideoSettings.verPos) :
    kc_adjust_capture_vertical_offset delta s = (false, s) ∧
    (∀ r, (kc_apply_mode_parameters r s).2.verPosWrites =
      s.verPosWrites ++ [(kc_mode_params_for_resolution s r).video.verPos]) ∧
    kc_adjust_capture_vertical_offset 0 s = (true, s) := by
  refine ⟨?_, fun r => rfl, by simp [kc_adjust_capture_vertical_offset]⟩
  unfold kc_adjust_capture_vertical_offset
  rw [if_neg hnz]
  simp only [hout, if_pos]

/-- A driver whose reported `verPos` range is [0, 100] with the current
position at 3; the hardware minimum is below the quirk floor of 2. -/
def verPosGuardState : CaptureState :=
  { initialCaptureState with
      hwVideoSettings := { zeroVideoSettings with verPos := 3 },
      hwMinVideoSettings := { zeroVideoSettings with verPos := 0 },
      hwMaxVideoSettings := { zeroVideoSettings with verPos := 100 } }

/-- C7 witness: a delta of -5 from position 3 would land at -2, below the
floor `max 2 min.verPos = 2`, and is rejected without a write even though
the driver minimum (0) would allow it. -/
theorem vertical_offset_guard_witness :
    kc_adjust_capture_vertical_offset (-5) verPosGuardState =
      (false, verPosGuardState) :=
  (vertical_offset_guard_and_apply_unclamped verPosGuardState (-5)
    (by decide) (by decide)).1

/-- C10: `ks_scaler_for_name_string` always yields a filter (never the
null initial value): the filter whose name matches the input exactly when
one exists in the catalogue, and otherwise the catalogue's first entry,
"Nearest", as a silent default. -/
theorem scaler_for_name_total_with_default (name : String) :
    (ks_scaler_for_name_string name).isSome = true ∧
    (name ∈ SCALING_FILTERS.map scaling_filter_s.name →
      ∃ f, ks_scaler_for_name_string name = some f ∧ f.name = name) ∧
    (name ∉ SCALING_FILTERS.map scaling_filter_s.name →
      ks_scaler_for_name_string name = some { name := "Nearest" }) := by
  unfold ks_scaler_for_name_string
  cases hf : SCALING_FILTERS.find? (fun f => f.name == name) with
  | some f =>
    have hpred := List.find?_some hf
    have hname : f.name = name := by simpa using hpred
    have hmem : name ∈ SCALING_FILTERS.map scaling_filter_s.name := by
      refine List.mem_map.mpr ⟨f, List.mem_of_find?_eq_some hf, hname⟩
    exact ⟨rfl, fun _ => ⟨f, rfl, hname⟩, fun hnot => absurd hmem hnot⟩
  | none =>
    have hall := List.find?_eq_none.mp hf
    have hnotmem : name ∉ SCALING_FILTERS.map scaling_filter_s.name := by
      intro hmem
      obtain ⟨f, hfmem, hfname⟩ := List.mem_map.mp hmem
      exact absurd (by simpa using hfname) (by simpa using hall f hfmem)
    exact ⟨rfl, fun hmem => absurd hmem hnotmem, fun _ => rfl⟩

/-- C10 witness: an exact match ("Area") is returned as itself, and an
unknown name ("Bogus") falls back to the first filter, "Nearest". -/
theorem scaler_for_name_witness :
    (∃ f, ks_scaler_for_name_string "Area" = some f ∧
       f.name = "Area") ∧
    ks_scaler_for_name_string "Bogus" = some { name := "Nearest" } :=
  ⟨(scaler_for_name_total_with_default "Area").2.1 (by decide),
   (scaler_for_name_total_with_default "Bogus").2.2 (by decide)⟩

/-- A decimal digit value as its ASCII character, as QTextStream renders
numbers digit by digit. -/
def digitChar (d : Nat) : Char := Char.ofNat (48 + d)

/-- The numeric value of an ASCII decimal digit character. -/
def charVal (c : Char) : Nat := c.toNat - 48

/-- Whether a character is an ASCII decimal digit. -/
def isDigitChar (c : Char) : Bool := 48 ≤ c.toNat && c.toNat ≤ 57

/-- QTextStream's decimal rendering of an unsigned integer
(most significant digit first). -/
def natToChars (n : Nat) : List Char :=
  if n = 0 then ['0'] else ((Nat.digits 10 n).map digitChar).reverse

/-- A digit string back to a number (most significant digit first). -/
def charsToNat (cs : List Char) : Nat :=
  Nat.ofDigits 10 ((cs.map charVal).reverse)

/-- Modelled from the spec: `QString::toUInt` as `kc_load_aliases`
applies it to each CSV field — "fields are positive integers"; Qt yields
0 whenever the field is not a decimal numeral fitting an unsigned 32-bit
integer. -/
def qstring_toUInt (cs : List Char) : Nat :=
  if cs ≠ [] ∧ cs.all isDigitChar ∧ charsToNat cs < U32_MOD then
    charsToNat cs
  else
    0

theorem charVal_digitChar {d : Nat} (hd : d < 10) :
    charVal (digitChar d) = d := by
  interval_cases d <;> decide

theorem isDigitChar_digitChar {d : Nat} (hd : d < 10) :
    isDigitChar (digitChar d) = true := by
  interval_cases d <;> decide

theorem digitChar_ne_comma {d : Nat} (hd : d < 10) : digitChar d ≠ ',' := by
  interval_cases d <;> decide

theorem digitChar_ne_newline {d : Nat} (hd : d < 10) : digitChar d ≠ '\n' := by
  interval_cases d <;> decide

theorem natToChars_ne_nil (n : Nat) : natToChars n ≠ [] := by
  unfold natToChars
  split
  · simp
  · simp_all [Nat.digits_ne_nil_iff_ne_zero]

/-- Every character of a decimal rendering is some digit below 10. -/
theorem mem_natToChars {n : Nat} {c : Char} (hc : c ∈ natToChars n) :
    ∃ d, d < 10 ∧ c = digitChar d := by
  unfold natToChars at hc
  split at hc
  · simp only [List.mem_singleton] at hc
    exact ⟨0, by omega, by simp [hc]; rfl⟩
  · rw [List.mem_reverse] at hc
    obtain ⟨d, hd, rfl⟩ := List.mem_map.mp hc
    exact ⟨d, Nat.digits_lt_base (by norm_num) hd, rfl⟩

theorem natToChars_all_digits (n : Nat) :
    (natToChars n).all isDigitChar = true := by
  rw [List.all_eq_true]
  intro c hc
  obtain ⟨d, hd, rfl⟩ := mem_natToChars hc
  exact isDigitChar_digitChar hd

theorem comma_not_mem_natToChars (n : Nat) : ',' ∉ natToChars n := by
  intro h
  obtain ⟨d, hd, he⟩ := mem_natToChars h
  exact digitChar_ne_comma hd he.symm

theorem newline_not_mem_natToChars (n : Nat) : '\n' ∉ natToChars n := by
  intro h
  obtain ⟨d, hd, he⟩ := mem_natToChars h
  exact digitChar_ne_newline hd he.symm

/-- Reading a decimal rendering back recovers the number. -/
theorem charsToNat_natToChars (n : Nat) : charsToNat (natToChars n) = n := by
  unfold natToChars charsToNat
  split
  · subst ‹n = 0›
    decide
  · rw [List.map_reverse, List.reverse_reverse, List.map_map]
    have hmap : (Nat.digits 10 n).map (charVal ∘ digitChar) =
        (Nat.digits 10 n).map id :=
      List.map_congr_left
        (fun d hd => charVal_digitChar (Nat.digits_lt_base (by norm_num) hd))
    rw [hmap, List.map_id, Nat.ofDigits_digits]

theorem qstring_toUInt_natToChars {n : Nat} (hn : n < U32_MOD) :
    qstring_toUInt (natToChars n) = n := by
  unfold qstring_toUInt
  rw [if_pos ⟨natToChars_ne_nil n, natToChars_all_digits n,
      by rw [charsToNat_natToChars]; exact hn⟩]
  exact charsToNat_natToChars n

/-- Split a character list at every occurrence of the separator, the way
a CSV reader cuts a byte stream into lines and a line into fields. -/
def splitOnChar (c : Char) (l : List Char) : List (List Char) :=
  match l with
  | [] => [[]]
  | x :: xs =>
    match splitOnChar c xs with
    | [] => [[]]
    | h :: t => if x = c then [] :: h :: t else (x :: h) :: t

theorem splitOnChar_ne_nil (c : Char) (l : List Char) :
    splitOnChar c l ≠ [] := by
  cases l with
  | nil => simp [splitOnChar]
  | cons x xs =>
    simp only [splitOnChar]
    cases splitOnChar c xs with
    | nil => simp
    | cons h t => by_cases hx : x = c <;> simp [hx]

theorem splitOnChar_sep_cons (c : Char) (l : List Char) :
    splitOnChar c (c :: l) = [] :: splitOnChar c l := by
  simp only [splitOnChar]
  cases hl : splitOnChar c l with
  | nil => exact absurd hl (splitOnChar_ne_nil c l)
  | cons h t => simp

theorem splitOnChar_other_cons {c x : Char} (hx : x ≠ c) (l : List Char)
    (h : List Char) (t : List (List Char)) (hl : splitOnChar c l = h :: t) :
    splitOnChar c (x :: l) = (x :: h) :: t := by
  simp only [splitOnChar, hl]
  simp [hx]

/-- Splitting at the first separator after a separator-free prefix. -/
theorem splitOnChar_append_sep (c : Char) (a b : List Char) (ha : c ∉ a) :
    splitOnChar c (a ++ c :: b) = a :: splitOnChar c b := by
  induction a with
  | nil => simpa using splitOnChar_sep_cons c b
  | cons x a ih =>
    have hx : x ≠ c := fun he => ha (he ▸ List.mem_cons_self x a)
    have ha2 : c ∉ a := fun hm => ha (List.mem_cons_of_mem _ hm)
    cases hsp : splitOnChar c (a ++ c :: b) with
    | nil => exact absurd hsp (splitOnChar_ne_nil c _)
    | cons h t =>
      rw [ih ha2] at hsp
      cases hsp
      rw [List.cons_append]
      exact splitOnChar_other_cons hx _ _ _ (ih ha2)

/-- Splitting a separator-free list leaves it whole. -/
theorem splitOnChar_no_sep (c : Char) (a : List Char) (ha : c ∉ a) :
    splitOnChar c a = [a] := by
  induction a with
  | nil => rfl
  | cons x a ih =>
    have hx : x ≠ c := fun he => ha (he ▸ List.mem_cons_self x a)
    have ha2 : c ∉ a := fun hm => ha (List.mem_cons_of_mem _ hm)
    exact splitOnChar_other_cons hx a a [] (ih ha2)

/-- One line of `kc_save_aliases`' write loop (capture.cpp:976):
`from.w ',' from.h ',' to.w ',' to.h ','` — trailing comma, no newline. -/
def alias_line (a : mode_alias_s) : List Char :=
  natToChars a.fromRes.w ++ [','] ++ natToChars a.fromRes.h ++ [','] ++
  natToChars a.toRes.w ++ [','] ++ natToChars a.toRes.h ++ [',']

/-- Concatenation of the chunks written to the byte stream. -/
def joinAll : List (List Char) → List Char
  | [] => []
  | l :: ls => l ++ joinAll ls

/-- `kc_save_aliases` (capture.cpp:960-1007) as far as the bytes written:
every alias as its line followed by `'\n'`; the temp-file/rename dance is
not modelled, only the resulting file content. -/
def kc_save_aliases_file (aliases : List mode_alias_s) : List Char :=
  joinAll (aliases.map (fun a => alias_line a ++ ['\n']))

/-- Modelled from the spec: `csv_parse_c(filename).contents()` — the csv
reader (`src/common/csv.h`) is not among the given sources. Per the
spec's schema ("each line `from_w,from_h,to_w,to_h,\n`. Trailing comma
significant; fields are positive integers") and its statement that such
a line reaches the loader as exactly four positive integer fields, the
modelled reader splits the file into its nonempty lines at newlines and
each line into its nonempty comma-separated fields. -/
def csv_parse_contents (file : List Char) : List (List (List Char)) :=
  ((splitOnChar '\n' file).filter (fun l => !l.isEmpty)).map
    (fun line => (splitOnChar ',' line).filter (fun f => !f.isEmpty))

/-- One row of `kc_load_aliases`' loop (capture.cpp:1024-1039):
`row.count() != 4` aborts the load, otherwise the four fields are parsed
with `toUInt` into an alias. -/
def parse_alias_row (row : List (List Char)) : Option mode_alias_s :=
  match row with
  | [f0, f1, f2, f3] =>
    some { fromRes := { w := qstring_toUInt f0, h := qstring_toUInt f1 },
           toRes := { w := qstring_toUInt f2, h := qstring_toUInt f3 } }
  | _ => none

/-- The row loop of `kc_load_aliases`, aborting at the first malformed
row (`goto fail`); `none` is the user-visible error path. -/
def parse_alias_rows : List (List (List Char)) → Option (List mode_alias_s)
  | [] => some []
  | row :: rest =>
    match parse_alias_row row with
    | none => none
    | some a =>
      match parse_alias_rows rest with
      | none => none
      | some l => some (a :: l)

/-- `kc_load_aliases` (capture.cpp:1014-1041) up to the point the parsed
aliases are handed to `kc_update_alias_resolutions` (the subsequent
in-memory sort by `to.w * to.h` is presentation only). -/
def kc_load_aliases_parse (file : List Char) : Option (List mode_alias_s) :=
  parse_alias_rows (csv_parse_contents file)

theorem newline_not_mem_alias_line (a : mode_alias_s) :
    '\n' ∉ alias_line a := by
  intro h
  simp only [alias_line, List.append_assoc, List.mem_append,
    List.mem_singleton] at h
  rcases h with h | h | h | h | h | h | h | h <;>
    first
      | exact newline_not_mem_natToChars _ h
      | exact absurd h (by decide)

theorem alias_line_ne_nil (a : mode_alias_s) : alias_line a ≠ [] := by
  simp [alias_line]

/-- Splitting the saved byte stream at newlines yields exactly the alias
lines, plus the empty residue after the final newline. -/
theorem splitOnChar_save_file (aliases : List mode_alias_s) :
    splitOnChar '\n' (kc_save_aliases_file aliases) =
      aliases.map alias_line ++ [[]] := by
  induction aliases with
  | nil => rfl
  | cons a rest ih =>
    have : kc_save_aliases_file (a :: rest) =
        alias_line a ++ '\n' :: kc_save_aliases_file rest := by
      simp [kc_save_aliases_file, joinAll]
    rw [this, splitOnChar_append_sep _ _ _ (newline_not_mem_alias_line a), ih]
    simp

/-- Splitting one saved alias line at commas yields its four numeral
fields plus the empty residue after the trailing comma. -/
theorem splitOnChar_alias_line (a : mode_alias_s) :
    splitOnChar ',' (alias_line a) =
      [natToChars a.fromRes.w, natToChars a.fromRes.h,
       natToChars a.toRes.w, natToChars a.toRes.h, []] := by
  have h4 : splitOnChar ',' (natToChars a.toRes.h ++ [',']) =
      [natToChars a.toRes.h, []] := by
    have : natToChars a.toRes.h ++ [','] = natToChars a.toRes.h ++ ',' :: [] := rfl
    rw [this, splitOnChar_append_sep _ _ _ (comma_not_mem_natToChars _)]
    rfl
  have : alias_line a =
      natToChars a.fromRes.w ++ ',' :: (natToChars a.fromRes.h ++ ',' ::
        (natToChars a.toRes.w ++ ',' :: (natToChars a.toRes.h ++ [',']))) := by
    simp [alias_line]
  rw [this,
    splitOnChar_append_sep _ _ _ (comma_not_mem_natToChars _),
    splitOnChar_append_sep _ _ _ (comma_not_mem_natToChars _),
    splitOnChar_append_sep _ _ _ (comma_not_mem_natToChars _),
    h4]

/-- The csv reader turns the saved bytes into one four-field row per
alias. -/
theorem csv_parse_save_file (aliases : List mode_alias_s) :
    csv_parse_contents (kc_save_aliases_file aliases) =
      aliases.map (fun a =>
        [natToChars a.fromRes.w, natToChars a.fromRes.h,
         natToChars a.toRes.w, natToChars a.toRes.h]) := by
  unfold csv_parse_contents
  rw [splitOnChar_save_file]
  rw [List.filter_append]
  have hlines : (aliases.map alias_line).filter (fun l => !l.isEmpty) =
      aliases.map alias_line := by
    rw [List.filter_eq_self]
    intro l hl
    obtain ⟨a, _, rfl⟩ := List.mem_map.mp hl
    simpa using alias_line_ne_nil a
  rw [hlines]
  simp only [List.filter, List.isEmpty_nil, Bool.not_true, List.append_nil]
  rw [List.map_map]
  refine List.map_congr_left (fun a _ => ?_)
  simp only [Function.comp_apply, splitOnChar_alias_line]
  have hne : ∀ n : Nat, (!(natToChars n).isEmpty) = true := by
    intro n
    simpa using natToChars_ne_nil n
  simp [List.filter, hne]

/-- C8: saving an alias list and parsing the saved file back yields the
same alias list (before the presentation-only sort): each saved line is
read as exactly four numeral fields, every field round-trips through
`toUInt`, and the loader's malformed-row error path is never taken. -/
theorem alias_save_load_roundtrip (aliases : List mode_alias_s)
    (hbound : ∀ a ∈ aliases,
      a.fromRes.w < U32_MOD ∧ a.fromRes.h < U32_MOD ∧
      a.toRes.w < U32_MOD ∧ a.toRes.h < U32_MOD) :
    kc_load_aliases_parse (kc_save_aliases_file aliases) = some aliases := by
  unfold kc_load_aliases_parse
  rw [csv_parse_save_file]
  induction aliases with
  | nil => rfl
  | cons a rest ih =>
    obtain ⟨hw1, hh1, hw2, hh2⟩ := hbound a (List.mem_cons_self a rest)
    have hrow : parse_alias_row
        [natToChars a.fromRes.w, natToChars a.fromRes.h,
         natToChars a.toRes.w, natToChars a.toRes.h] = some a := by
      simp [parse_alias_row, qstring_toUInt_natToChars, hw1, hh1, hw2, hh2]
    have hrest := ih (fun b hb => hbound b (List.mem_cons_of_mem _ hb))
    simp only [List.map_cons, parse_alias_rows, hrow, hrest]

/-- The alias list used to witness the save/load round trip. -/
def roundtripAliases : List mode_alias_s :=
  [ { fromRes := { w := 800, h := 600 }, toRes := { w := 1024, h := 768 } },
    { fromRes := { w := 320, h := 200 }, toRes := { w := 640, h := 400 } } ]

/-- C8 witness: the round trip at a concrete two-alias list whose fields
all fit an unsigned 32-bit integer. -/
theorem alias_save_load_roundtrip_witness :
    (∀ a ∈ roundtripAliases,
      a.fromRes.w < U32_MOD ∧ a.fromRes.h < U32_MOD ∧
      a.toRes.w < U32_MOD ∧ a.toRes.h < U32_MOD) ∧
    kc_load_aliases_parse (kc_save_aliases_file roundtripAliases) =
      some roundtripAliases :=
  ⟨by decide, alias_save_load_roundtrip roundtripAliases (by decide)⟩
